import Mathlib

set_option maxHeartbeats 1600000

/-! Verification development for the streetwise-score scoring engine
(`src/utils/scoringAlgorithm.ts`).  The engine is shallowly embedded over ℚ.
JavaScript numbers are modelled as exact rationals extended with the IEEE
special values (`Infinity`, `-Infinity`, `NaN`), which the algorithm can
produce at its two divisions by a data-dependent denominator
(`price / squareFeet` and `floor / totalFloors`); every other arithmetic
step of the source maps finite numbers to finite numbers, so those parts
are embedded directly in ℚ. -/

namespace Streetwise

/-- A JavaScript number: a finite rational or one of the IEEE specials. -/
inductive JsNum where
  | num (q : ℚ)
  | posInf
  | negInf
  | nan
deriving DecidableEq

namespace JsNum

/-- JS `+` on numbers. -/
def jadd : JsNum → JsNum → JsNum
  | num a, num b => num (a + b)
  | num _, posInf => posInf
  | num _, negInf => negInf
  | posInf, num _ => posInf
  | negInf, num _ => negInf
  | posInf, posInf => posInf
  | negInf, negInf => negInf
  | posInf, negInf => nan
  | negInf, posInf => nan
  | _, _ => nan

/-- JS `-` on numbers. -/
def jsub : JsNum → JsNum → JsNum
  | num a, num b => num (a - b)
  | num _, posInf => negInf
  | num _, negInf => posInf
  | posInf, num _ => posInf
  | negInf, num _ => negInf
  | posInf, negInf => posInf
  | negInf, posInf => negInf
  | posInf, posInf => nan
  | negInf, negInf => nan
  | _, _ => nan

/-- JS `*` on numbers. -/
def jmul : JsNum → JsNum → JsNum
  | num a, num b => num (a * b)
  | num a, posInf => if 0 < a then posInf else if a < 0 then negInf else nan
  | num a, negInf => if 0 < a then negInf else if a < 0 then posInf else nan
  | posInf, num b => if 0 < b then posInf else if b < 0 then negInf else nan
  | negInf, num b => if 0 < b then negInf else if b < 0 then posInf else nan
  | posInf, posInf => posInf
  | negInf, negInf => posInf
  | posInf, negInf => negInf
  | negInf, posInf => negInf
  | _, _ => nan

/-- JS `/` on numbers (division by `0` here is division by IEEE `+0`). -/
def jdiv : JsNum → JsNum → JsNum
  | num a, num b =>
      if b = 0 then (if 0 < a then posInf else if a < 0 then negInf else nan)
      else num (a / b)
  | num _, posInf => num 0
  | num _, negInf => num 0
  | posInf, num b => if 0 ≤ b then posInf else negInf
  | negInf, num b => if 0 ≤ b then negInf else posInf
  | _, _ => nan

/-- JS `Math.max` (NaN-propagating). -/
def jmax : JsNum → JsNum → JsNum
  | num a, num b => num (max a b)
  | posInf, num _ => posInf
  | num _, posInf => posInf
  | posInf, posInf => posInf
  | negInf, num b => num b
  | num a, negInf => num a
  | negInf, negInf => negInf
  | posInf, negInf => posInf
  | negInf, posInf => posInf
  | _, _ => nan

/-- JS `Math.min` (NaN-propagating). -/
def jmin : JsNum → JsNum → JsNum
  | num a, num b => num (min a b)
  | posInf, num b => num b
  | num a, posInf => num a
  | posInf, posInf => posInf
  | negInf, num _ => negInf
  | num _, negInf => negInf
  | negInf, negInf => negInf
  | posInf, negInf => negInf
  | negInf, posInf => negInf
  | _, _ => nan

/-- JS `Math.round`: round half toward `+∞` on finite numbers. -/
def jround : JsNum → JsNum
  | num q => num ((⌊q + 1/2⌋ : ℤ) : ℚ)
  | posInf => posInf
  | negInf => negInf
  | nan => nan

/-- JS `<` on numbers (`false` whenever an operand is NaN). -/
def jlt : JsNum → JsNum → Bool
  | num a, num b => a < b
  | num _, posInf => true
  | negInf, num _ => true
  | negInf, posInf => true
  | _, _ => false

end JsNum

open JsNum

/-- JS `Math.round(x * 10) / 10` on a finite number: round to one decimal. -/
def round1 (q : ℚ) : ℚ := ((⌊q * 10 + 1/2⌋ : ℤ) : ℚ) / 10

/-- JS `Math.round` on a finite number. -/
def jsRound (q : ℚ) : ℤ := ⌊q + 1/2⌋

/-- JS `o || d` for an optional number `o`: the value unless it is absent or
`0` (both falsy), in which case the default `d`. -/
def numOr (o : Option ℚ) (d : ℚ) : ℚ :=
  match o with
  | some x => if x = 0 then d else x
  | none => d

/-- JS `o ? f(o) : d` for an optional number `o`: `f` of the value unless the
value is absent or `0` (both falsy). -/
def ternQ (o : Option ℚ) (f : ℚ → ℚ) (d : ℚ) : ℚ :=
  match o with
  | some x => if x = 0 then d else f x
  | none => d

/-- Does the character list `l` contain `pat` as a contiguous sublist?
(Model of JS `String.prototype.includes` over the code points.) -/
def listIncludes (pat : List Char) : List Char → Bool
  | [] => pat.isEmpty
  | c :: rest => pat.isPrefixOf (c :: rest) || listIncludes pat rest

/-- JS `s.toLowerCase().includes(pat)` for a lowercase pattern `pat`. -/
def jsIncludesLower (s : String) (pat : String) : Bool :=
  listIncludes pat.data (s.data.map Char.toLower)

/-- One entry of `priceHistoryDetails.events`. -/
structure PriceEvent where
  date : String
  price : ℚ
  event : String
deriving DecidableEq

/-- The `priceHistoryDetails` object of `PropertyData`. -/
structure PriceHistoryDetails where
  percentageChange : Option ℚ
  timeContext : Option String
  analysis : Option String
  events : Option (List PriceEvent)
deriving DecidableEq

/-- The `buildingType` enum of `PropertyData`. -/
inductive BuildingType where
  | prewar | postwar | modern | luxury | historic | other
deriving DecidableEq

/-- The `priceHistory` enum of `PropertyData`. -/
inductive PriceHistory where
  | increased | decreased | stable
deriving DecidableEq

/-- The input record of the scoring engine (`PropertyData` in
`scoringAlgorithm.ts`); numeric fields are finite JS numbers, optional
fields are `Option`s. -/
structure PropertyData where
  address : String
  price : ℚ
  monthlyFees : ℚ
  floor : ℚ
  totalFloors : ℚ
  squareFeet : ℚ
  bedrooms : ℚ
  bathrooms : ℚ
  schoolDistrict : String
  buildingAge : ℚ
  amenities : List String
  homeFeatures : List String
  walkScore : Option ℚ
  transitScore : Option ℚ
  bikeScore : Option ℚ
  buildingType : Option BuildingType
  neighborhood : Option String
  proximityToPark : Option ℚ
  proximityToSubway : Option ℚ
  safetyScore : Option ℚ
  noiseLevel : Option ℚ
  petFriendly : Option Bool
  daysOnMarket : Option ℚ
  priceHistory : Option PriceHistory
  priceHistoryDetails : Option PriceHistoryDetails
  assessmentRatio : Option ℚ
deriving DecidableEq

/-- The weight configuration (`ScoringWeights`). -/
structure ScoringWeights where
  priceValue : ℚ
  location : ℚ
  schools : ℚ
  building : ℚ
  amenities : ℚ
  neighborhood : ℚ
  marketContext : ℚ
  lifestyle : ℚ
deriving DecidableEq

/-- The output record (`ScoreBreakdown`).  `overall` and `priceValue` are
kept as full JS numbers because the engine never guards the `priceValue`
pipeline against the specials; the other seven sub-scores are produced by
functions that clamp finite rationals, so they are embedded as ℚ. -/
structure ScoreBreakdown where
  overall : JsNum
  priceValue : JsNum
  location : ℚ
  schools : ℚ
  building : ℚ
  amenities : ℚ
  neighborhood : ℚ
  marketContext : ℚ
  lifestyle : ℚ
deriving DecidableEq

/-- `DEFAULT_WEIGHTS` of the source. -/
def DEFAULT_WEIGHTS : ScoringWeights :=
  { priceValue := 0.25
    location := 0.20
    schools := 0.15
    building := 0.15
    amenities := 0.08
    neighborhood := 0.10
    marketContext := 0.04
    lifestyle := 0.03 }

/-- `SCHOOL_DISTRICT_SCORES` of the source: a string-keyed record, `none`
for a key the record does not hold. -/
def SCHOOL_DISTRICT_SCORES (key : String) : Option ℚ :=
  if key = "District 1" then some 9
  else if key = "District 2" then some 8
  else if key = "District 3" then some 7
  else if key = "District 15" then some 8
  else if key = "District 20" then some 6
  else if key = "District 22" then some 5
  else if key = "Stuyvesant HS Zone" then some 10
  else if key = "Bronx Science Zone" then some 9
  else if key = "Brooklyn Tech Zone" then some 8
  else if key = "Other" then some 5
  else none

/-- `BUILDING_TYPE_SCORES` of the source (total on the enum). -/
def BUILDING_TYPE_SCORES : BuildingType → ℚ
  | .prewar => 8.5
  | .postwar => 6.5
  | .modern => 8.0
  | .luxury => 9.5
  | .historic => 8.0
  | .other => 6.0

/-- The local `priceScore` of `calculateEnhancedPriceValue`, hoisted: the
clamped linear score of `price / squareFeet` against the default NYC band
`expectedPriceRange = { min: 800, max: 2000 }`.  The division can produce
the specials, so this value is a full JS number. -/
def priceScoreOf (property : PropertyData) : JsNum :=
  jmax (num 1) (jmin (num 10)
    (jsub (num 10)
      (jmul (jdiv (jsub (jdiv (num property.price) (num property.squareFeet)) (num 800))
        (num (2000 - 800))) (num 8))))

/-- The local `monthlyFeesScore` of `calculateEnhancedPriceValue`, hoisted. -/
def monthlyFeesScoreOf (property : PropertyData) : ℚ :=
  max 1 (min 10 (10 - (property.monthlyFees - 500) / 400))

/-- The local `marketTimeBonus` of `calculateEnhancedPriceValue`, hoisted:
`property.daysOnMarket ? Math.min(1.5, 1 + (property.daysOnMarket - 30) / 100) : 1.0`. -/
def marketTimeBonusOf (property : PropertyData) : ℚ :=
  ternQ property.daysOnMarket (fun d => min 1.5 (1 + (d - 30) / 100)) 1.0

/-- `calculateEnhancedPriceValue`:
`((priceScore + monthlyFeesScore) / 2) * marketTimeBonus`. -/
def calculateEnhancedPriceValue (property : PropertyData) : JsNum :=
  jmul (jdiv (jadd (priceScoreOf property) (num (monthlyFeesScoreOf property))) (num 2))
    (num (marketTimeBonusOf property))

/-- `calculateEnhancedLocation`: all inputs and operations are finite. -/
def calculateEnhancedLocation (property : PropertyData) : ℚ :=
  let walkScore := numOr property.walkScore 50
  let transitScore := numOr property.transitScore 50
  let bikeScore := numOr property.bikeScore 50
  let parkProximity := ternQ property.proximityToPark (fun m => max 0 (10 - m / 2)) 5
  let subwayProximity := ternQ property.proximityToSubway (fun m => max 0 (10 - m)) 5
  let safetyScore := numOr property.safetyScore 6
  let combinedScore :=
    (walkScore * 0.3 +
     transitScore * 0.3 +
     bikeScore * 0.1 +
     parkProximity * 0.1 +
     subwayProximity * 0.1 +
     safetyScore * 0.1) / 10
  max 1 (min 10 combinedScore)

/-- The local `floorRatio` of `calculateEnhancedBuilding`, hoisted:
`property.floor / property.totalFloors`, a full JS number (`0 / 0` is NaN). -/
def floorRatioOf (property : PropertyData) : JsNum :=
  jdiv (num property.floor) (num property.totalFloors)

/-- The local `floorScore` of `calculateEnhancedBuilding`, hoisted:
`floorRatio < 0.2 ? 0.8 : floorRatio > 0.8 ? 0.9 : 1.0` (JS comparisons,
false on NaN). -/
def floorScoreOf (property : PropertyData) : ℚ :=
  if jlt (floorRatioOf property) (num 0.2) then 0.8
  else if jlt (num 0.8) (floorRatioOf property) then 0.9
  else 1.0

/-- `calculateEnhancedBuilding`. -/
def calculateEnhancedBuilding (property : PropertyData) : ℚ :=
  let ageScore := max 1 (min 10 (10 - property.buildingAge / 15))
  let buildingTypeScore := BUILDING_TYPE_SCORES (property.buildingType.getD .other)
  let combinedScore := (ageScore * 0.5 + buildingTypeScore * 0.5) * floorScoreOf property
  max 1 (min 10 combinedScore)

/-- `calculateEnhancedAmenities`. -/
def calculateEnhancedAmenities (property : PropertyData) : ℚ :=
  let score : ℚ := min 8 ((property.amenities.length : ℚ) + 2)
  let homeFeatures := property.homeFeatures
  let homeFeaturesScore := (homeFeatures.length : ℚ) * 0.5
  let premiumFeatures := ["Fireplace", "Private outdoor space", "Washer/dryer", "Central air"]
  let premiumCount :=
    (homeFeatures.filter (fun feature => premiumFeatures.contains feature)).length
  let premiumBonus := (premiumCount : ℚ) * 0.3
  max 1 (min 10 (score + homeFeaturesScore + premiumBonus))

/-- `calculateMarketContext`.  The source mutates a local `score`; the
embedding threads it through explicit rebindings in the source's order. -/
def calculateMarketContext (property : PropertyData) : ℚ :=
  let score : ℚ := 5
  let score :=
    match property.priceHistoryDetails with
    | some details =>
      let score := score +
        (match details.percentageChange with
         | some pc =>
           if pc < -10 then 2.0
           else if pc < -5 then 1.0
           else if pc > 15 then -1.5
           else if pc > 5 then -0.5
           else 0
         | none => 0)
      let score := score +
        (match details.timeContext with
         | some tc =>
           if tc = "" then 0
           else if jsIncludesLower tc "recent" || jsIncludesLower tc "month" then
             (match details.percentageChange with
              | some pc => if pc = 0 then 0 else if pc < 0 then 0.5 else 0
              | none => 0)
           else 0
         | none => 0)
      let score := score +
        (match details.events with
         | some events =>
           if events.length > 0 then
             (if events.length > 3 then -0.5
              else if events.length = 1 then 0.3
              else 0) +
             (let recentEvents := events.drop (events.length - 2)
              let hasRecentPriceReduction := recentEvents.any (fun e =>
                jsIncludesLower e.event "price" && jsIncludesLower e.event "reduc")
              if hasRecentPriceReduction then 0.8 else 0)
           else 0
         | none => 0)
      score
    | none =>
      let historyBonus : ℚ :=
        match property.priceHistory.getD .stable with
        | .stable => 0
        | .increased => -0.5
        | .decreased => 1.0
      score + historyBonus
  let score := score +
    ternQ property.daysOnMarket
      (fun d => if d > 90 then 0.5 else if d < 7 then 0.3 else 0) 0
  let assessmentBonus :=
    ternQ property.assessmentRatio (fun r => max (-2) (min 2 ((0.8 - r) * 5))) 0
  let score := score + assessmentBonus
  max 1 (min 10 score)

/-- `calculateLifestyle`. -/
def calculateLifestyle (property : PropertyData) : ℚ :=
  let score : ℚ := 5
  let score := score + ternQ property.noiseLevel (fun n => max (-3) ((5 - n) * 0.8)) 0
  let score := score + (if property.petFriendly.getD false then 1 else 0)
  max 1 (min 10 score)

/-- The `schools` line of `calculatePropertyScore`, hoisted:
`SCHOOL_DISTRICT_SCORES[property.schoolDistrict] || 5`. -/
def schoolsScoreOf (property : PropertyData) : ℚ :=
  match SCHOOL_DISTRICT_SCORES property.schoolDistrict with
  | some s => if s = 0 then 5 else s
  | none => 5

/-- The `neighborhood` line of `calculatePropertyScore`, hoisted:
`Math.max(1, Math.min(10, (property.bikeScore || 50) / 10))`. -/
def neighborhoodScoreOf (property : PropertyData) : ℚ :=
  max 1 (min 10 (numOr property.bikeScore 50 / 10))

/-- `calculatePropertyScore`: the eight sub-scores, the weighted rounded
overall, and the per-field rounding to one decimal.  `priceValue` flows
through JS-number arithmetic unguarded; the other seven sub-scores are
finite by construction. -/
def calculatePropertyScore (property : PropertyData)
    (weights : ScoringWeights := DEFAULT_WEIGHTS) : ScoreBreakdown :=
  let priceValue := calculateEnhancedPriceValue property
  let location := calculateEnhancedLocation property
  let schools := schoolsScoreOf property
  let building := calculateEnhancedBuilding property
  let amenities := calculateEnhancedAmenities property
  let neighborhood := neighborhoodScoreOf property
  let marketContext := calculateMarketContext property
  let lifestyle := calculateLifestyle property
  let overall := jround (jadd (jadd (jadd (jadd (jadd (jadd (jadd
      (jmul priceValue (num weights.priceValue))
      (num (location * weights.location)))
      (num (schools * weights.schools)))
      (num (building * weights.building)))
      (num (amenities * weights.amenities)))
      (num (neighborhood * weights.neighborhood)))
      (num (marketContext * weights.marketContext)))
      (num (lifestyle * weights.lifestyle)))
  { overall := jmax (num 1) (jmin (num 10) overall)
    priceValue := jdiv (jround (jmul priceValue (num 10))) (num 10)
    location := round1 location
    schools := round1 schools
    building := round1 building
    amenities := round1 amenities
    neighborhood := round1 neighborhood
    marketContext := round1 marketContext
    lifestyle := round1 lifestyle }

/-- `getScoreColor`. -/
def getScoreColor (score : ℚ) : String :=
  if score ≥ 8 then "score-excellent"
  else if score ≥ 6.5 then "score-good"
  else if score ≥ 5 then "score-average"
  else "score-poor"

/-- `getScoreLabel`. -/
def getScoreLabel (score : ℚ) : String :=
  if score ≥ 8 then "Excellent"
  else if score ≥ 6.5 then "Good"
  else if score ≥ 5 then "Average"
  else "Poor"

/-- The finite value of `priceScoreOf` away from the `0 / 0` case: `1` when
`squareFeet = 0` and the price is positive (the `Infinity` branch clamps to
the lower bound), `10` when it is negative, and the clamped linear band
score otherwise. -/
def qPriceScore (p : PropertyData) : ℚ :=
  if p.squareFeet = 0 then (if 0 < p.price then 1 else 10)
  else max 1 (min 10 (10 - (p.price / p.squareFeet - 800) / (2000 - 800) * 8))

/-- A neutral base record used for the concrete inputs of the claims. -/
def baseProperty : PropertyData :=
  { address := "1 Main St"
    price := 1000000
    monthlyFees := 500
    floor := 2
    totalFloors := 10
    squareFeet := 1000
    bedrooms := 2
    bathrooms := 1
    schoolDistrict := "Other"
    buildingAge := 10
    amenities := []
    homeFeatures := []
    walkScore := none
    transitScore := none
    bikeScore := none
    buildingType := none
    neighborhood := none
    proximityToPark := none
    proximityToSubway := none
    safetyScore := none
    noiseLevel := none
    petFriendly := none
    daysOnMarket := none
    priceHistory := none
    priceHistoryDetails := none
    assessmentRatio := none }

/-- A listing at the low end of the price band (`$800/sqft` scores 10,
`monthlyFees = 500` scores 10) that has been listed 130 days: the market
time bonus is `1.5` and the price value reaches `15`. -/
def cxC1 : PropertyData := { baseProperty with price := 800000, daysOnMarket := some 130 }

/-- A listing with `price = 0` and `squareFeet = 0`: the engine divides
`0 / 0`. -/
def cxC2 : PropertyData := { baseProperty with price := 0, squareFeet := 0 }

/-- A cheap listing (`$800/sqft`, fees 500) listed only 10 days: the market
time bonus is `min(1.5, 0.8) = 0.8`, below `1`. -/
def cxC3 : PropertyData := { baseProperty with price := 800000, daysOnMarket := some 10 }

/-- The Scenario D input: a 15% price drop and 120 days on market. -/
def cxC5 : PropertyData :=
  { baseProperty with
    priceHistoryDetails := some
      { percentageChange := some (-15), timeContext := none, analysis := none, events := none }
    daysOnMarket := some 120 }

/-- The Scenario B input: `squareFeet = 0, bedrooms = 1, price = 900000`. -/
def scenarioB : PropertyData :=
  { baseProperty with squareFeet := 0, bedrooms := 1, price := 900000 }

/-- Score in `[1, 10]`. -/
abbrev inRange (q : ℚ) : Prop := 1 ≤ q ∧ q ≤ 10

section Lemmas

/-! Generic facts about the clamp `Math.max(1, Math.min(10, ·))`, the
one-decimal rounding, and the JS-number operations on finite arguments. -/

lemma one_le_clamp (x : ℚ) : 1 ≤ max 1 (min 10 x) := le_max_left 1 _

lemma clamp_le_ten (x : ℚ) : max 1 (min 10 x) ≤ 10 :=
  max_le (by norm_num) (min_le_left _ _)

lemma clamp_mono {x y : ℚ} (h : x ≤ y) : max 1 (min 10 x) ≤ max 1 (min 10 y) :=
  max_le_max le_rfl (min_le_min le_rfl h)

lemma round1_le_of_le {q : ℚ} (m : ℤ) (h : q ≤ (m : ℚ) / 10) : round1 q ≤ (m : ℚ) / 10 := by
  unfold round1
  have h1 : q * 10 + 1 / 2 ≤ (m : ℚ) + 1 / 2 := by linarith
  have h2 : (⌊q * 10 + 1 / 2⌋ : ℤ) ≤ m := by
    have hm : ((m : ℚ) + 1 / 2) < m + 1 := by norm_num
    have := Int.floor_le_floor h1
    have hfl : (⌊(m : ℚ) + 1 / 2⌋ : ℤ) = m := by
      rw [add_comm]
      rw [Int.floor_add_int]
      norm_num
    omega
  have : ((⌊q * 10 + 1 / 2⌋ : ℤ) : ℚ) ≤ (m : ℚ) := by exact_mod_cast h2
  linarith

lemma le_round1_of_le {q : ℚ} (m : ℤ) (h : (m : ℚ) / 10 ≤ q) : (m : ℚ) / 10 ≤ round1 q := by
  unfold round1
  have h1 : (m : ℚ) ≤ q * 10 + 1 / 2 := by linarith
  have h2 : m ≤ (⌊q * 10 + 1 / 2⌋ : ℤ) := Int.le_floor.mpr h1
  have : ((m : ℤ) : ℚ) ≤ ((⌊q * 10 + 1 / 2⌋ : ℤ) : ℚ) := by exact_mod_cast h2
  linarith

lemma round1_mono {a b : ℚ} (h : a ≤ b) : round1 a ≤ round1 b := by
  unfold round1
  have h2 : (⌊a * 10 + 1 / 2⌋ : ℤ) ≤ ⌊b * 10 + 1 / 2⌋ := Int.floor_le_floor (by linarith)
  have : ((⌊a * 10 + 1 / 2⌋ : ℤ) : ℚ) ≤ ((⌊b * 10 + 1 / 2⌋ : ℤ) : ℚ) := by exact_mod_cast h2
  linarith

lemma round1_mem_Icc {q : ℚ} (h1 : 1 ≤ q) (h10 : q ≤ 10) :
    1 ≤ round1 q ∧ round1 q ≤ 10 := by
  constructor
  · have := le_round1_of_le 10 (q := q) (by push_cast; linarith)
    have h' : ((10 : ℤ) : ℚ) / 10 = 1 := by norm_num
    rw [h'] at this
    exact this
  · have := round1_le_of_le 100 (q := q) (by push_cast; linarith)
    have h' : ((100 : ℤ) : ℚ) / 10 = 10 := by norm_num
    rw [h'] at this
    exact this

open JsNum in
lemma jsnum_fin_ops (a b : ℚ) :
    jadd (num a) (num b) = num (a + b) ∧
    jsub (num a) (num b) = num (a - b) ∧
    jmul (num a) (num b) = num (a * b) ∧
    jmax (num a) (num b) = num (max a b) ∧
    jmin (num a) (num b) = num (min a b) :=
  ⟨rfl, rfl, rfl, rfl, rfl⟩

open JsNum

/-! Projections of `calculatePropertyScore` (definitional). -/

lemma cps_priceValue (p : PropertyData) (w : ScoringWeights) :
    (calculatePropertyScore p w).priceValue =
      jdiv (jround (jmul (calculateEnhancedPriceValue p) (num 10))) (num 10) := rfl

lemma cps_location (p : PropertyData) (w : ScoringWeights) :
    (calculatePropertyScore p w).location = round1 (calculateEnhancedLocation p) := rfl

lemma cps_schools (p : PropertyData) (w : ScoringWeights) :
    (calculatePropertyScore p w).schools = round1 (schoolsScoreOf p) := rfl

lemma cps_building (p : PropertyData) (w : ScoringWeights) :
    (calculatePropertyScore p w).building = round1 (calculateEnhancedBuilding p) := rfl

lemma cps_amenities (p : PropertyData) (w : ScoringWeights) :
    (calculatePropertyScore p w).amenities = round1 (calculateEnhancedAmenities p) := rfl

lemma cps_neighborhood (p : PropertyData) (w : ScoringWeights) :
    (calculatePropertyScore p w).neighborhood = round1 (neighborhoodScoreOf p) := rfl

lemma cps_marketContext (p : PropertyData) (w : ScoringWeights) :
    (calculatePropertyScore p w).marketContext = round1 (calculateMarketContext p) := rfl

lemma cps_lifestyle (p : PropertyData) (w : ScoringWeights) :
    (calculatePropertyScore p w).lifestyle = round1 (calculateLifestyle p) := rfl

lemma cps_overall (p : PropertyData) (w : ScoringWeights) :
    (calculatePropertyScore p w).overall =
      jmax (num 1) (jmin (num 10) (jround (jadd (jadd (jadd (jadd (jadd (jadd (jadd
        (jmul (calculateEnhancedPriceValue p) (num w.priceValue))
        (num (calculateEnhancedLocation p * w.location)))
        (num (schoolsScoreOf p * w.schools)))
        (num (calculateEnhancedBuilding p * w.building)))
        (num (calculateEnhancedAmenities p * w.amenities)))
        (num (neighborhoodScoreOf p * w.neighborhood)))
        (num (calculateMarketContext p * w.marketContext)))
        (num (calculateLifestyle p * w.lifestyle))))) := rfl

/-! The finite characterisation of the price-value pipeline. -/

lemma priceScore_fin {p : PropertyData} (h : p.squareFeet ≠ 0) :
    priceScoreOf p =
      num (max 1 (min 10 (10 - (p.price / p.squareFeet - 800) / (2000 - 800) * 8))) := by
  unfold priceScoreOf
  rw [show jdiv (num p.price) (num p.squareFeet) = num (p.price / p.squareFeet) by
    simp [jdiv, h]]
  norm_num [jsub, jdiv, jmul, jmin, jmax]

lemma priceScore_sqft0_pos {p : PropertyData} (h0 : p.squareFeet = 0) (hp : 0 < p.price) :
    priceScoreOf p = num 1 := by
  unfold priceScoreOf
  rw [show jdiv (num p.price) (num p.squareFeet) = posInf by
    simp [jdiv, h0, hp]]
  norm_num [jsub, jdiv, jmul, jmin, jmax]

lemma priceScore_sqft0_neg {p : PropertyData} (h0 : p.squareFeet = 0) (hp : p.price < 0) :
    priceScoreOf p = num 10 := by
  unfold priceScoreOf
  rw [show jdiv (num p.price) (num p.squareFeet) = negInf by
    simp [jdiv, h0, hp, asymm hp]]
  norm_num [jsub, jdiv, jmul, jmin, jmax]

lemma priceScore_eq {p : PropertyData} (h : ¬(p.price = 0 ∧ p.squareFeet = 0)) :
    priceScoreOf p = num (qPriceScore p) := by
  unfold qPriceScore
  by_cases h0 : p.squareFeet = 0
  · have hp : p.price ≠ 0 := fun hp => h ⟨hp, h0⟩
    rcases lt_or_gt_of_ne hp with hneg | hpos
    · rw [priceScore_sqft0_neg h0 hneg, if_pos h0, if_neg (not_lt.mpr hneg.le)]
    · rw [priceScore_sqft0_pos h0 hpos, if_pos h0, if_pos hpos]
  · rw [priceScore_fin h0, if_neg h0]

lemma qPriceScore_bounds (p : PropertyData) :
    1 ≤ qPriceScore p ∧ qPriceScore p ≤ 10 := by
  unfold qPriceScore
  split_ifs
  · norm_num
  · norm_num
  · exact ⟨one_le_clamp _, clamp_le_ten _⟩

lemma monthlyFeesScore_bounds (p : PropertyData) :
    1 ≤ monthlyFeesScoreOf p ∧ monthlyFeesScoreOf p ≤ 10 :=
  ⟨one_le_clamp _, clamp_le_ten _⟩

lemma bonus_bounds {p : PropertyData} (hd : ∀ d, p.daysOnMarket = some d → 0 ≤ d) :
    7 / 10 ≤ marketTimeBonusOf p ∧ marketTimeBonusOf p ≤ 3 / 2 := by
  unfold marketTimeBonusOf ternQ
  cases hdm : p.daysOnMarket with
  | none => norm_num
  | some d =>
    have hd0 : 0 ≤ d := hd d hdm
    dsimp only
    by_cases hz : d = 0
    · rw [if_pos hz]; norm_num
    · rw [if_neg hz]
      constructor
      · rw [le_inf_iff]
        exact ⟨by norm_num, by linarith⟩
      · exact le_trans inf_le_left (by norm_num)

lemma epv_eq {p : PropertyData} (h : ¬(p.price = 0 ∧ p.squareFeet = 0)) :
    calculateEnhancedPriceValue p =
      num (((qPriceScore p + monthlyFeesScoreOf p) / 2) * marketTimeBonusOf p) := by
  unfold calculateEnhancedPriceValue
  rw [priceScore_eq h]
  norm_num [jadd, jdiv, jmul]

lemma epv_nan {p : PropertyData} (hp : p.price = 0) (h0 : p.squareFeet = 0) :
    calculateEnhancedPriceValue p = nan := by
  unfold calculateEnhancedPriceValue priceScoreOf
  rw [show jdiv (num p.price) (num p.squareFeet) = nan by simp [jdiv, h0, hp]]
  norm_num [jsub, jdiv, jmul, jmin, jmax, jadd]

lemma epv_bounds {p : PropertyData} (h : ¬(p.price = 0 ∧ p.squareFeet = 0))
    (hd : ∀ d, p.daysOnMarket = some d → 0 ≤ d) :
    ∃ q : ℚ, calculateEnhancedPriceValue p = num q ∧ 7 / 10 ≤ q ∧ q ≤ 15 := by
  refine ⟨_, epv_eq h, ?_, ?_⟩
  · obtain ⟨hp1, _⟩ := qPriceScore_bounds p
    obtain ⟨hm1, _⟩ := monthlyFeesScore_bounds p
    obtain ⟨hb1, hb2⟩ := bonus_bounds hd
    nlinarith
  · obtain ⟨hp1, hp2⟩ := qPriceScore_bounds p
    obtain ⟨hm1, hm2⟩ := monthlyFeesScore_bounds p
    obtain ⟨hb1, hb2⟩ := bonus_bounds hd
    nlinarith

lemma pv_field_num {p : PropertyData} {w : ScoringWeights} {q : ℚ}
    (h : calculateEnhancedPriceValue p = num q) :
    (calculatePropertyScore p w).priceValue = num (round1 q) := by
  rw [cps_priceValue, h]
  norm_num [jmul, jround, jdiv, round1]

/-! Bounds of the finite sub-scores. -/

lemma location_bounds (p : PropertyData) :
    1 ≤ calculateEnhancedLocation p ∧ calculateEnhancedLocation p ≤ 10 :=
  ⟨one_le_clamp _, clamp_le_ten _⟩

lemma building_bounds (p : PropertyData) :
    1 ≤ calculateEnhancedBuilding p ∧ calculateEnhancedBuilding p ≤ 10 :=
  ⟨one_le_clamp _, clamp_le_ten _⟩

lemma amenities_bounds (p : PropertyData) :
    1 ≤ calculateEnhancedAmenities p ∧ calculateEnhancedAmenities p ≤ 10 :=
  ⟨one_le_clamp _, clamp_le_ten _⟩

lemma marketContext_bounds (p : PropertyData) :
    1 ≤ calculateMarketContext p ∧ calculateMarketContext p ≤ 10 :=
  ⟨one_le_clamp _, clamp_le_ten _⟩

lemma lifestyle_bounds (p : PropertyData) :
    1 ≤ calculateLifestyle p ∧ calculateLifestyle p ≤ 10 :=
  ⟨one_le_clamp _, clamp_le_ten _⟩

lemma neighborhood_bounds (p : PropertyData) :
    1 ≤ neighborhoodScoreOf p ∧ neighborhoodScoreOf p ≤ 10 :=
  ⟨one_le_clamp _, clamp_le_ten _⟩

lemma schools_bounds (p : PropertyData) :
    1 ≤ schoolsScoreOf p ∧ schoolsScoreOf p ≤ 10 := by
  unfold schoolsScoreOf SCHOOL_DISTRICT_SCORES
  split_ifs <;> norm_num

lemma clamp_round_int (S : ℚ) :
    (num (max 1 (min 10 ((⌊S + 1 / 2⌋ : ℤ) : ℚ))) =
      num ((((max 1 (min 10 ⌊S + 1 / 2⌋)) : ℤ) : ℚ))) ∧
      1 ≤ max 1 (min 10 ⌊S + 1 / 2⌋) ∧ max 1 (min 10 ⌊S + 1 / 2⌋) ≤ 10 := by
  refine ⟨?_, le_max_left _ _, max_le (by norm_num) (min_le_left _ _)⟩
  congr 1
  push_cast
  rfl

lemma overall_int_bounds {p : PropertyData} {w : ScoringWeights} {q : ℚ}
    (hq : calculateEnhancedPriceValue p = num q) :
    ∃ k : ℤ, (calculatePropertyScore p w).overall = num (k : ℚ) ∧ 1 ≤ k ∧ k ≤ 10 := by
  rw [cps_overall, hq]
  simp only [jmul, jadd, jround, jmin, jmax]
  exact ⟨_, (clamp_round_int _).1, (clamp_round_int _).2.1, (clamp_round_int _).2.2⟩

/-! The four threshold regions of the presentation helpers. -/

lemma color_region_ex {s : ℚ} (h : s ≥ 8) : getScoreColor s = "score-excellent" := by
  unfold getScoreColor
  rw [if_pos h]

lemma color_region_good {s : ℚ} (h1 : ¬s ≥ 8) (h2 : s ≥ 6.5) :
    getScoreColor s = "score-good" := by
  unfold getScoreColor
  rw [if_neg h1, if_pos h2]

lemma color_region_avg {s : ℚ} (h1 : ¬s ≥ 8) (h2 : ¬s ≥ 6.5) (h3 : s ≥ 5) :
    getScoreColor s = "score-average" := by
  unfold getScoreColor
  rw [if_neg h1, if_neg h2, if_pos h3]

lemma color_region_poor {s : ℚ} (h1 : ¬s ≥ 8) (h2 : ¬s ≥ 6.5) (h3 : ¬s ≥ 5) :
    getScoreColor s = "score-poor" := by
  unfold getScoreColor
  rw [if_neg h1, if_neg h2, if_neg h3]

lemma label_region_ex {s : ℚ} (h : s ≥ 8) : getScoreLabel s = "Excellent" := by
  unfold getScoreLabel
  rw [if_pos h]

lemma label_region_good {s : ℚ} (h1 : ¬s ≥ 8) (h2 : s ≥ 6.5) :
    getScoreLabel s = "Good" := by
  unfold getScoreLabel
  rw [if_neg h1, if_pos h2]

lemma label_region_avg {s : ℚ} (h1 : ¬s ≥ 8) (h2 : ¬s ≥ 6.5) (h3 : s ≥ 5) :
    getScoreLabel s = "Average" := by
  unfold getScoreLabel
  rw [if_neg h1, if_neg h2, if_pos h3]

lemma label_region_poor {s : ℚ} (h1 : ¬s ≥ 8) (h2 : ¬s ≥ 6.5) (h3 : ¬s ≥ 5) :
    getScoreLabel s = "Poor" := by
  unfold getScoreLabel
  rw [if_neg h1, if_neg h2, if_neg h3]

end Lemmas

/-- Claim C7: for every `(PropertyData, ScoringWeights)` input, two calls of
`calculatePropertyScore` with that identical input yield identical
`ScoreBreakdown` outputs: the function is deterministic and depends only on
its arguments (it is a pure function of the embedding). -/
theorem claim_C7 (p₁ p₂ : PropertyData) (w₁ w₂ : ScoringWeights)
    (hp : p₁ = p₂) (hw : w₁ = w₂) :
    calculatePropertyScore p₁ w₁ = calculatePropertyScore p₂ w₂ := by
  rw [hp, hw]

/-- Witness for C7 at a concrete input. -/
theorem claim_C7_witness :
    calculatePropertyScore baseProperty DEFAULT_WEIGHTS =
      calculatePropertyScore baseProperty DEFAULT_WEIGHTS :=
  claim_C7 baseProperty baseProperty DEFAULT_WEIGHTS DEFAULT_WEIGHTS rfl rfl

/-- Claim C9: optional numeric inputs that are present but equal to `0` are
treated exactly as absent: `daysOnMarket = 0` yields market-time bonus `1.0`
and the same price value and market context as an absent `daysOnMarket`
(so the fresh-listing `+0.3` adjustment is not triggered although `0 < 7`),
and `walkScore`, `transitScore`, `bikeScore`, `safetyScore` equal to `0`
behave as their defaults (`50`, `50`, `50`, `6`). -/
theorem claim_C9 (p : PropertyData) :
    marketTimeBonusOf { p with daysOnMarket := some 0 } = 1.0 ∧
    calculateEnhancedPriceValue { p with daysOnMarket := some 0 } =
      calculateEnhancedPriceValue { p with daysOnMarket := none } ∧
    calculateMarketContext { p with daysOnMarket := some 0 } =
      calculateMarketContext { p with daysOnMarket := none } ∧
    calculateEnhancedLocation { p with walkScore := some 0 } =
      calculateEnhancedLocation { p with walkScore := none } ∧
    calculateEnhancedLocation { p with transitScore := some 0 } =
      calculateEnhancedLocation { p with transitScore := none } ∧
    calculateEnhancedLocation { p with bikeScore := some 0 } =
      calculateEnhancedLocation { p with bikeScore := none } ∧
    calculateEnhancedLocation { p with safetyScore := some 0 } =
      calculateEnhancedLocation { p with safetyScore := none } ∧
    neighborhoodScoreOf { p with bikeScore := some 0 } =
      neighborhoodScoreOf { p with bikeScore := none } := by
  refine ⟨rfl, ?_, ?_, ?_, ?_, ?_, ?_, ?_⟩
  · unfold calculateEnhancedPriceValue priceScoreOf monthlyFeesScoreOf marketTimeBonusOf ternQ
    rfl
  · unfold calculateMarketContext ternQ
    rfl
  · unfold calculateEnhancedLocation numOr ternQ
    rfl
  · unfold calculateEnhancedLocation numOr ternQ
    rfl
  · unfold calculateEnhancedLocation numOr ternQ
    rfl
  · unfold calculateEnhancedLocation numOr ternQ
    rfl
  · unfold neighborhoodScoreOf numOr
    rfl

/-- Claim C10: the building sub-score function is total and returns a value
in `[1,10]` for every input, including `totalFloors = 0`: the two JS
comparisons on the possibly non-finite `floor / totalFloors` ratio still
select a floor multiplier in `{0.8, 0.9, 1.0}` (`1.0` in the NaN case
`floor = 0 ∧ totalFloors = 0`), and the final clamp bounds the finite
combined score. -/
theorem claim_C10 (p : PropertyData) :
    (1 ≤ calculateEnhancedBuilding p ∧ calculateEnhancedBuilding p ≤ 10) ∧
    (floorScoreOf p = 0.8 ∨ floorScoreOf p = 0.9 ∨ floorScoreOf p = 1.0) ∧
    (p.floor = 0 ∧ p.totalFloors = 0 → floorRatioOf p = nan ∧ floorScoreOf p = 1.0) := by
  refine ⟨building_bounds p, ?_, ?_⟩
  · unfold floorScoreOf
    split_ifs
    · exact Or.inl rfl
    · exact Or.inr (Or.inl rfl)
    · exact Or.inr (Or.inr rfl)
  · rintro ⟨hf, ht⟩
    have hr : floorRatioOf p = nan := by
      unfold floorRatioOf
      rw [hf, ht]
      norm_num [jdiv]
    refine ⟨hr, ?_⟩
    unfold floorScoreOf
    rw [hr]
    norm_num [jlt]

/-- Claim C8: the color-category helper returns `score-excellent` iff
`score ≥ 8`, `score-good` iff `6.5 ≤ score < 8`, `score-average` iff
`5 ≤ score < 6.5`, `score-poor` iff `score < 5`; and `getScoreLabel`
returns the human label of exactly that same category for the same score. -/
theorem claim_C8 (s : ℚ) :
    (getScoreColor s = "score-excellent" ↔ 8 ≤ s) ∧
    (getScoreColor s = "score-good" ↔ 6.5 ≤ s ∧ s < 8) ∧
    (getScoreColor s = "score-average" ↔ 5 ≤ s ∧ s < 6.5) ∧
    (getScoreColor s = "score-poor" ↔ s < 5) ∧
    (getScoreLabel s = "Excellent" ↔ getScoreColor s = "score-excellent") ∧
    (getScoreLabel s = "Good" ↔ getScoreColor s = "score-good") ∧
    (getScoreLabel s = "Average" ↔ getScoreColor s = "score-average") ∧
    (getScoreLabel s = "Poor" ↔ getScoreColor s = "score-poor") := by
  by_cases h1 : s ≥ 8
  · rw [color_region_ex h1, label_region_ex h1]
    refine ⟨⟨fun _ => h1, fun _ => rfl⟩, ?_, ?_, ?_,
      ⟨fun _ => rfl, fun _ => rfl⟩, ?_, ?_, ?_⟩
    · exact ⟨fun hx => absurd hx (by decide), fun hx => absurd h1 (not_le.mpr hx.2)⟩
    · exact ⟨fun hx => absurd hx (by decide), fun hx => absurd h1 (by push_neg; linarith [hx.2])⟩
    · exact ⟨fun hx => absurd hx (by decide), fun hx => absurd h1 (by push_neg; linarith)⟩
    · exact ⟨fun hx => absurd hx (by decide), fun hx => absurd hx (by decide)⟩
    · exact ⟨fun hx => absurd hx (by decide), fun hx => absurd hx (by decide)⟩
    · exact ⟨fun hx => absurd hx (by decide), fun hx => absurd hx (by decide)⟩
  · by_cases h2 : s ≥ 6.5
    · rw [color_region_good h1 h2, label_region_good h1 h2]
      have hs8 : s < 8 := not_le.mp h1
      have hs65 : (6.5 : ℚ) ≤ s := h2
      refine ⟨?_, ⟨fun _ => ⟨hs65, hs8⟩, fun _ => rfl⟩, ?_, ?_,
        ?_, ⟨fun _ => rfl, fun _ => rfl⟩, ?_, ?_⟩
      · exact ⟨fun hx => absurd hx (by decide), fun hx => absurd hx (not_le.mpr hs8)⟩
      · exact ⟨fun hx => absurd hx (by decide), fun hx => absurd hx.2 (by push_neg; linarith)⟩
      · exact ⟨fun hx => absurd hx (by decide), fun hx => absurd hx (by push_neg; linarith)⟩
      · exact ⟨fun hx => absurd hx (by decide), fun hx => absurd hx (by decide)⟩
      · exact ⟨fun hx => absurd hx (by decide), fun hx => absurd hx (by decide)⟩
      · exact ⟨fun hx => absurd hx (by decide), fun hx => absurd hx (by decide)⟩
    · by_cases h3 : s ≥ 5
      · rw [color_region_avg h1 h2 h3, label_region_avg h1 h2 h3]
        have hs65 : s < 6.5 := not_le.mp h2
        have hs5 : (5 : ℚ) ≤ s := h3
        refine ⟨?_, ?_, ⟨fun _ => ⟨hs5, hs65⟩, fun _ => rfl⟩, ?_,
          ?_, ?_, ⟨fun _ => rfl, fun _ => rfl⟩, ?_⟩
        · exact ⟨fun hx => absurd hx (by decide), fun hx => absurd hx (by push_neg; linarith)⟩
        · exact ⟨fun hx => absurd hx (by decide), fun hx => absurd hx.1 (by push_neg; linarith)⟩
        · exact ⟨fun hx => absurd hx (by decide), fun hx => absurd hx (by push_neg; linarith)⟩
        · exact ⟨fun hx => absurd hx (by decide), fun hx => absurd hx (by decide)⟩
        · exact ⟨fun hx => absurd hx (by decide), fun hx => absurd hx (by decide)⟩
        · exact ⟨fun hx => absurd hx (by decide), fun hx => absurd hx (by decide)⟩
      · rw [color_region_poor h1 h2 h3, label_region_poor h1 h2 h3]
        have hs5 : s < 5 := not_le.mp h3
        refine ⟨?_, ?_, ?_, ⟨fun _ => hs5, fun _ => rfl⟩,
          ?_, ?_, ?_, ⟨fun _ => rfl, fun _ => rfl⟩⟩
        · exact ⟨fun hx => absurd hx (by decide), fun hx => absurd hx (by push_neg; linarith)⟩
        · exact ⟨fun hx => absurd hx (by decide), fun hx => absurd hx.1 (by push_neg; linarith)⟩
        · exact ⟨fun hx => absurd hx (by decide), fun hx => absurd hx.1 (by push_neg; linarith)⟩
        · exact ⟨fun hx => absurd hx (by decide), fun hx => absurd hx (by decide)⟩
        · exact ⟨fun hx => absurd hx (by decide), fun hx => absurd hx (by decide)⟩
        · exact ⟨fun hx => absurd hx (by decide), fun hx => absurd hx (by decide)⟩

/-- Claim C1 counterexample: at `cxC1` the returned `priceValue` field is
`15`, outside `[1,10]` — the market-time multiplier `1.5` is applied after
the two component scores were clamped, and the product is never
re-clamped. -/
theorem claim_C1_counterexample :
    (calculatePropertyScore cxC1 DEFAULT_WEIGHTS).priceValue = num 15 ∧
    ¬∃ q : ℚ, (calculatePropertyScore cxC1 DEFAULT_WEIGHTS).priceValue = num q ∧ inRange q := by
  have h15 : (calculatePropertyScore cxC1 DEFAULT_WEIGHTS).priceValue = num 15 := by
    have h : calculateEnhancedPriceValue cxC1 = num 15 := by
      unfold calculateEnhancedPriceValue
      rw [priceScore_fin (by norm_num [cxC1, baseProperty])]
      norm_num [cxC1, baseProperty, min_def, max_def, monthlyFeesScoreOf, marketTimeBonusOf,
        ternQ, jadd, jdiv, jmul]
    rw [pv_field_num h]
    norm_num [round1]
  refine ⟨h15, ?_⟩
  rintro ⟨q, hq, _, h10⟩
  rw [h15] at hq
  have : (15 : ℚ) = q := by injection hq
  rw [← this] at h10
  norm_num at h10

/-- Claim C1 (amended): for every `PropertyData` whose `price` and
`squareFeet` are not both `0` (otherwise the output holds NaN) and whose
`daysOnMarket`, when present, is non-negative, and for every
`ScoringWeights`: `overall` is an integer in `[1,10]` and every sub-score
field except `priceValue` is a finite number in `[1,10]`; `priceValue`
itself is finite but only bounded by `[0.7, 15]` (the market-time
multiplier, in `[0.7, 1.5]`, is applied after clamping and the result is
not re-clamped). -/
theorem claim_C1_amended (p : PropertyData) (w : ScoringWeights)
    (hz : ¬(p.price = 0 ∧ p.squareFeet = 0))
    (hd : ∀ d, p.daysOnMarket = some d → 0 ≤ d) :
    (∃ k : ℤ, (calculatePropertyScore p w).overall = num (k : ℚ) ∧ 1 ≤ k ∧ k ≤ 10) ∧
    (∃ q : ℚ, (calculatePropertyScore p w).priceValue = num q ∧ 7 / 10 ≤ q ∧ q ≤ 15) ∧
    inRange (calculatePropertyScore p w).location ∧
    inRange (calculatePropertyScore p w).schools ∧
    inRange (calculatePropertyScore p w).building ∧
    inRange (calculatePropertyScore p w).amenities ∧
    inRange (calculatePropertyScore p w).neighborhood ∧
    inRange (calculatePropertyScore p w).marketContext ∧
    inRange (calculatePropertyScore p w).lifestyle := by
  obtain ⟨q, hq, hq7, hq15⟩ := epv_bounds hz hd
  refine ⟨overall_int_bounds hq, ⟨round1 q, pv_field_num hq, ?_, ?_⟩, ?_, ?_, ?_, ?_, ?_, ?_, ?_⟩
  · have h := le_round1_of_le 7 (q := q) (by push_cast; linarith)
    push_cast at h
    linarith
  · have h := round1_le_of_le 150 (q := q) (by push_cast; linarith)
    push_cast at h
    linarith
  · rw [cps_location]
    exact round1_mem_Icc (location_bounds p).1 (location_bounds p).2
  · rw [cps_schools]
    exact round1_mem_Icc (schools_bounds p).1 (schools_bounds p).2
  · rw [cps_building]
    exact round1_mem_Icc (building_bounds p).1 (building_bounds p).2
  · rw [cps_amenities]
    exact round1_mem_Icc (amenities_bounds p).1 (amenities_bounds p).2
  · rw [cps_neighborhood]
    exact round1_mem_Icc (neighborhood_bounds p).1 (neighborhood_bounds p).2
  · rw [cps_marketContext]
    exact round1_mem_Icc (marketContext_bounds p).1 (marketContext_bounds p).2
  · rw [cps_lifestyle]
    exact round1_mem_Icc (lifestyle_bounds p).1 (lifestyle_bounds p).2

/-- Witness for C1 (amended) at `baseProperty` with the default weights. -/
theorem claim_C1_witness :
    (∃ k : ℤ, (calculatePropertyScore baseProperty DEFAULT_WEIGHTS).overall = num (k : ℚ) ∧
      1 ≤ k ∧ k ≤ 10) ∧
    (∃ q : ℚ, (calculatePropertyScore baseProperty DEFAULT_WEIGHTS).priceValue = num q ∧
      7 / 10 ≤ q ∧ q ≤ 15) ∧
    inRange (calculatePropertyScore baseProperty DEFAULT_WEIGHTS).location ∧
    inRange (calculatePropertyScore baseProperty DEFAULT_WEIGHTS).schools ∧
    inRange (calculatePropertyScore baseProperty DEFAULT_WEIGHTS).building ∧
    inRange (calculatePropertyScore baseProperty DEFAULT_WEIGHTS).amenities ∧
    inRange (calculatePropertyScore baseProperty DEFAULT_WEIGHTS).neighborhood ∧
    inRange (calculatePropertyScore baseProperty DEFAULT_WEIGHTS).marketContext ∧
    inRange (calculatePropertyScore baseProperty DEFAULT_WEIGHTS).lifestyle :=
  claim_C1_amended baseProperty DEFAULT_WEIGHTS (by decide) (by intro d h; simp [baseProperty] at h)

/-- Claim C2 counterexample: at `price = 0, squareFeet = 0` the engine
divides `0 / 0`; the NaN propagates unguarded into both the `priceValue`
field and `overall` — there is no per-room fallback path and no baseline-5
substitution anywhere in `calculateEnhancedPriceValue`. -/
theorem claim_C2_counterexample :
    (calculatePropertyScore cxC2 DEFAULT_WEIGHTS).priceValue = nan ∧
    (calculatePropertyScore cxC2 DEFAULT_WEIGHTS).overall = nan := by
  constructor
  · rw [cps_priceValue,
      epv_nan (by norm_num [cxC2, baseProperty]) (by norm_num [cxC2, baseProperty])]
    norm_num [jmul, jround, jdiv]
  · rw [cps_overall,
      epv_nan (by norm_num [cxC2, baseProperty]) (by norm_num [cxC2, baseProperty])]
    norm_num [jmul, jadd, jround, jmin, jmax]

/-- Claim C2 (amended): for `squareFeet = 0` with a positive price the
engine does not fall back to a per-room tier — `price / squareFeet` is
`Infinity`, the internal price score clamps to `1`, and
`priceValue = ((1 + monthlyFeesScore) / 2) * marketTimeBonus`; with
`daysOnMarket` absent the returned `priceValue` is finite and in `[1,10]`
(so Scenario B returns a finite in-range value, but not via any per-room
classification).  With `price = 0` as well, the output holds NaN (see the
counterexample). -/
theorem claim_C2_amended (p : PropertyData) (w : ScoringWeights)
    (h0 : p.squareFeet = 0) (hp : 0 < p.price) :
    priceScoreOf p = num 1 ∧
    calculateEnhancedPriceValue p =
      num (((1 + monthlyFeesScoreOf p) / 2) * marketTimeBonusOf p) ∧
    (p.daysOnMarket = none →
      ∃ q : ℚ, (calculatePropertyScore p w).priceValue = num q ∧ inRange q) := by
  have hps := priceScore_sqft0_pos h0 hp
  have hepv : calculateEnhancedPriceValue p =
      num (((1 + monthlyFeesScoreOf p) / 2) * marketTimeBonusOf p) := by
    unfold calculateEnhancedPriceValue
    rw [hps]
    norm_num [jadd, jdiv, jmul]
  refine ⟨hps, hepv, ?_⟩
  intro hdom
  have hb : marketTimeBonusOf p = 1 := by
    unfold marketTimeBonusOf ternQ
    rw [hdom]
    norm_num
  rw [hb, mul_one] at hepv
  obtain ⟨hm1, hm10⟩ := monthlyFeesScore_bounds p
  exact ⟨round1 ((1 + monthlyFeesScoreOf p) / 2), pv_field_num hepv,
    (round1_mem_Icc (by linarith) (by linarith)).1,
    (round1_mem_Icc (by linarith) (by linarith)).2⟩

/-- Witness for C2 (amended) at the Scenario B input
`squareFeet = 0, bedrooms = 1, price = 900000`. -/
theorem claim_C2_witness :
    priceScoreOf scenarioB = num 1 ∧
    calculateEnhancedPriceValue scenarioB =
      num (((1 + monthlyFeesScoreOf scenarioB) / 2) * marketTimeBonusOf scenarioB) ∧
    (scenarioB.daysOnMarket = none →
      ∃ q : ℚ, (calculatePropertyScore scenarioB DEFAULT_WEIGHTS).priceValue = num q ∧
        inRange q) :=
  claim_C2_amended scenarioB DEFAULT_WEIGHTS (by norm_num [scenarioB, baseProperty])
    (by norm_num [scenarioB, baseProperty])

/-- Claim C3 counterexample: at 10 days on market the code's multiplier is
`min(1.5, 0.8) = 0.8` — there is no lower clamp at `1.0` — so with both
component scores at `10` the returned `priceValue` is `8`, while the
claimed formula `average * clamp(1 + (d-30)/100, 1.0, 1.5)` would give
`10`. -/
theorem claim_C3_counterexample :
    (calculatePropertyScore cxC3 DEFAULT_WEIGHTS).priceValue = num 8 ∧
    (8 : ℚ) ≠ ((10 + 10) / 2) * max 1.0 (min 1.5 (1 + ((10 : ℚ) - 30) / 100)) := by
  constructor
  · have h : calculateEnhancedPriceValue cxC3 = num 8 := by
      unfold calculateEnhancedPriceValue
      rw [priceScore_fin (by norm_num [cxC3, baseProperty])]
      norm_num [cxC3, baseProperty, min_def, max_def, monthlyFeesScoreOf, marketTimeBonusOf,
        ternQ, jadd, jdiv, jmul]
    rw [pv_field_num h]
    norm_num [round1]
  · norm_num [min_def, max_def]

/-- Claim C3 (amended): when `daysOnMarket` is present and non-zero the
multiplier is `min(1.5, 1 + (d - 30)/100)` — capped above at `1.5` but with
no lower clamp at `1.0`, so it falls below `1` for `d < 30` (to at most
`0.7` for valid `d ≥ 0`); the returned `priceValue` is the average of the
price and monthly-fee scores times that multiplier, rounded to one decimal
but not clamped to `[1,10]`. -/
theorem claim_C3_amended (p : PropertyData) (w : ScoringWeights) (d : ℚ)
    (hdm : p.daysOnMarket = some d) (hdnz : d ≠ 0)
    (hz : ¬(p.price = 0 ∧ p.squareFeet = 0)) :
    marketTimeBonusOf p = min 1.5 (1 + (d - 30) / 100) ∧
    (calculatePropertyScore p w).priceValue =
      num (round1 (((qPriceScore p + monthlyFeesScoreOf p) / 2) *
        min 1.5 (1 + (d - 30) / 100))) ∧
    (0 ≤ d → 7 / 10 ≤ min 1.5 (1 + (d - 30) / 100)) := by
  have hb : marketTimeBonusOf p = min 1.5 (1 + (d - 30) / 100) := by
    unfold marketTimeBonusOf ternQ
    rw [hdm]
    dsimp only
    rw [if_neg hdnz]
  refine ⟨hb, ?_, ?_⟩
  · have h := epv_eq hz
    rw [hb] at h
    exact pv_field_num h
  · intro h0
    rw [le_min_iff]
    exact ⟨by norm_num, by linarith⟩

/-- Witness for C3 (amended) at `cxC3` (10 days on market). -/
theorem claim_C3_witness :
    marketTimeBonusOf cxC3 = min 1.5 (1 + ((10 : ℚ) - 30) / 100) ∧
    (calculatePropertyScore cxC3 DEFAULT_WEIGHTS).priceValue =
      num (round1 (((qPriceScore cxC3 + monthlyFeesScoreOf cxC3) / 2) *
        min 1.5 (1 + ((10 : ℚ) - 30) / 100))) ∧
    (0 ≤ (10 : ℚ) → 7 / 10 ≤ min 1.5 (1 + ((10 : ℚ) - 30) / 100)) :=
  claim_C3_amended cxC3 DEFAULT_WEIGHTS 10 rfl (by norm_num)
    (by norm_num [cxC3, baseProperty])

/-- Claim C4 counterexample: with every optional location input absent the
location sub-score is `3.66` (`3.7` in the output), not the claimed `5.1`:
the whole weighted blend — including the park, subway and safety terms —
is divided by `10`, not only the walk/transit/bike terms. -/
theorem claim_C4_counterexample :
    calculateEnhancedLocation baseProperty = 183 / 50 ∧
    (calculatePropertyScore baseProperty DEFAULT_WEIGHTS).location = 37 / 10 ∧
    (37 : ℚ) / 10 ≠ 51 / 10 := by
  have h : calculateEnhancedLocation baseProperty = 183 / 50 := by
    norm_num [calculateEnhancedLocation, baseProperty, numOr, ternQ, min_def, max_def]
  refine ⟨h, ?_, by norm_num⟩
  rw [cps_location, h]
  norm_num [round1]

/-- Claim C4 (amended): the location sub-score is the clamp of the whole
blend `(walk*0.3 + transit*0.3 + bike*0.1 + park*0.1 + subway*0.1 +
safety*0.1) / 10` — equivalently effective weights `0.03/0.03/0.01/0.01/
0.01/0.01`, so the 0–10-scale park, subway and safety inputs are also
scaled down by 10 — and with every optional location field absent the
sub-score is `3.66`, rounded to `3.7` in the output. -/
theorem claim_C4_amended (p : PropertyData) (w : ScoringWeights)
    (hw : p.walkScore = none) (ht : p.transitScore = none) (hb : p.bikeScore = none)
    (hpk : p.proximityToPark = none) (hsb : p.proximityToSubway = none)
    (hsf : p.safetyScore = none) :
    (∀ p' : PropertyData, calculateEnhancedLocation p' =
      max 1 (min 10
        (numOr p'.walkScore 50 * 0.03 + numOr p'.transitScore 50 * 0.03 +
         numOr p'.bikeScore 50 * 0.01 +
         ternQ p'.proximityToPark (fun m => max 0 (10 - m / 2)) 5 * 0.01 +
         ternQ p'.proximityToSubway (fun m => max 0 (10 - m)) 5 * 0.01 +
         numOr p'.safetyScore 6 * 0.01))) ∧
    calculateEnhancedLocation p = 3.66 ∧
    (calculatePropertyScore p w).location = 3.7 := by
  have h : calculateEnhancedLocation p = 183 / 50 := by
    norm_num [calculateEnhancedLocation, hw, ht, hb, hpk, hsb, hsf, numOr, ternQ,
      min_def, max_def]
  refine ⟨?_, by rw [h]; norm_num, ?_⟩
  · intro p'
    unfold calculateEnhancedLocation
    dsimp only
    have hr : (numOr p'.walkScore 50 * 0.3 + numOr p'.transitScore 50 * 0.3 +
        numOr p'.bikeScore 50 * 0.1 +
        ternQ p'.proximityToPark (fun m => max 0 (10 - m / 2)) 5 * 0.1 +
        ternQ p'.proximityToSubway (fun m => max 0 (10 - m)) 5 * 0.1 +
        numOr p'.safetyScore 6 * 0.1) / 10 =
        numOr p'.walkScore 50 * 0.03 + numOr p'.transitScore 50 * 0.03 +
        numOr p'.bikeScore 50 * 0.01 +
        ternQ p'.proximityToPark (fun m => max 0 (10 - m / 2)) 5 * 0.01 +
        ternQ p'.proximityToSubway (fun m => max 0 (10 - m)) 5 * 0.01 +
        numOr p'.safetyScore 6 * 0.01 := by ring
    rw [hr]
  · rw [cps_location, h]
    norm_num [round1]

/-- Witness for C4 (amended) at `baseProperty` (all location inputs
absent). -/
theorem claim_C4_witness :
    (∀ p' : PropertyData, calculateEnhancedLocation p' =
      max 1 (min 10
        (numOr p'.walkScore 50 * 0.03 + numOr p'.transitScore 50 * 0.03 +
         numOr p'.bikeScore 50 * 0.01 +
         ternQ p'.proximityToPark (fun m => max 0 (10 - m / 2)) 5 * 0.01 +
         ternQ p'.proximityToSubway (fun m => max 0 (10 - m)) 5 * 0.01 +
         numOr p'.safetyScore 6 * 0.01))) ∧
    calculateEnhancedLocation baseProperty = 3.66 ∧
    (calculatePropertyScore baseProperty DEFAULT_WEIGHTS).location = 3.7 :=
  claim_C4_amended baseProperty DEFAULT_WEIGHTS rfl rfl rfl rfl rfl rfl

/-- Claim C5 counterexample: at `percentageChange = -15, daysOnMarket =
120` the market-context sub-score is `5 + 2.0 + 0.5 = 7.5`, which does not
exceed the cap — the output is `7.5`, not the claimed clamped `10`. -/
theorem claim_C5_counterexample :
    calculateMarketContext cxC5 = 15 / 2 ∧
    (calculatePropertyScore cxC5 DEFAULT_WEIGHTS).marketContext = 15 / 2 ∧
    (15 : ℚ) / 2 ≠ 10 := by
  have h : calculateMarketContext cxC5 = 15 / 2 := by
    norm_num [calculateMarketContext, cxC5, baseProperty, ternQ, min_def, max_def]
  refine ⟨h, ?_, by norm_num⟩
  rw [cps_marketContext, h]
  norm_num [round1]

/-- Claim C5 (amended): with `percentageChange = -15` and `daysOnMarket =
120` (other market-context inputs absent) the sub-score receives both the
`+2.0` adjustment (change below −10%) and the `+0.5` adjustment (more than
90 days) on the baseline `5`, giving `7.5` — which is below the cap of 10,
so no clamping occurs. -/
theorem claim_C5_amended (p : PropertyData) (w : ScoringWeights) (a : Option String)
    (hdet : p.priceHistoryDetails = some
      { percentageChange := some (-15), timeContext := none, analysis := a, events := none })
    (hdom : p.daysOnMarket = some 120) (har : p.assessmentRatio = none) :
    calculateMarketContext p = 5 + 2.0 + 0.5 ∧
    (calculatePropertyScore p w).marketContext = 7.5 ∧
    (5 : ℚ) + 2.0 + 0.5 < 10 := by
  have h : calculateMarketContext p = 15 / 2 := by
    norm_num [calculateMarketContext, hdet, hdom, har, ternQ, min_def, max_def]
  refine ⟨by rw [h]; norm_num, ?_, by norm_num⟩
  rw [cps_marketContext, h]
  norm_num [round1]

/-- Witness for C5 (amended) at the Scenario D input `cxC5`. -/
theorem claim_C5_witness :
    calculateMarketContext cxC5 = 5 + 2.0 + 0.5 ∧
    (calculatePropertyScore cxC5 DEFAULT_WEIGHTS).marketContext = 7.5 ∧
    (5 : ℚ) + 2.0 + 0.5 < 10 :=
  claim_C5_amended cxC5 DEFAULT_WEIGHTS none rfl rfl rfl

/-- Claim C6: holding every other field fixed, with `squareFeet > 0` (and a
non-negative `daysOnMarket` where present, as the data model requires), a
higher price never yields a higher `priceValue` sub-score in the returned
breakdown. -/
theorem claim_C6 (p : PropertyData) (w : ScoringWeights) (pr₁ pr₂ : ℚ)
    (hs : 0 < p.squareFeet)
    (hd : ∀ d, p.daysOnMarket = some d → 0 ≤ d)
    (hlt : pr₁ < pr₂) :
    ∃ q₁ q₂ : ℚ,
      (calculatePropertyScore { p with price := pr₁ } w).priceValue = num q₁ ∧
      (calculatePropertyScore { p with price := pr₂ } w).priceValue = num q₂ ∧
      q₂ ≤ q₁ := by
  have hsne : p.squareFeet ≠ 0 := ne_of_gt hs
  have hz₁ : ¬(({ p with price := pr₁ } : PropertyData).price = 0 ∧
      ({ p with price := pr₁ } : PropertyData).squareFeet = 0) := fun h => hsne h.2
  have hz₂ : ¬(({ p with price := pr₂ } : PropertyData).price = 0 ∧
      ({ p with price := pr₂ } : PropertyData).squareFeet = 0) := fun h => hsne h.2
  have he₁ := epv_eq hz₁
  have he₂ := epv_eq hz₂
  have hq₁ : qPriceScore { p with price := pr₁ } =
      max 1 (min 10 (10 - (pr₁ / p.squareFeet - 800) / (2000 - 800) * 8)) := by
    unfold qPriceScore
    rw [if_neg hsne]
  have hq₂ : qPriceScore { p with price := pr₂ } =
      max 1 (min 10 (10 - (pr₂ / p.squareFeet - 800) / (2000 - 800) * 8)) := by
    unfold qPriceScore
    rw [if_neg hsne]
  have hdiv : pr₁ / p.squareFeet ≤ pr₂ / p.squareFeet := by gcongr
  have hmono : qPriceScore { p with price := pr₂ } ≤ qPriceScore { p with price := pr₁ } := by
    rw [hq₁, hq₂]
    apply clamp_mono
    linarith
  obtain ⟨hb7, _⟩ := bonus_bounds hd
  have hble : (0 : ℚ) ≤ marketTimeBonusOf p := by linarith
  have hle : ((qPriceScore { p with price := pr₂ } + monthlyFeesScoreOf p) / 2) *
        marketTimeBonusOf p ≤
      ((qPriceScore { p with price := pr₁ } + monthlyFeesScoreOf p) / 2) *
        marketTimeBonusOf p := by
    apply mul_le_mul_of_nonneg_right _ hble
    linarith
  exact ⟨_, _, pv_field_num he₁, pv_field_num he₂, round1_mono hle⟩

/-- Witness for C6 at `baseProperty` with prices `1,000,000 < 2,000,000`. -/
theorem claim_C6_witness :
    ∃ q₁ q₂ : ℚ,
      (calculatePropertyScore { baseProperty with price := 1000000 }
        DEFAULT_WEIGHTS).priceValue = num q₁ ∧
      (calculatePropertyScore { baseProperty with price := 2000000 }
        DEFAULT_WEIGHTS).priceValue = num q₂ ∧
      q₂ ≤ q₁ :=
  claim_C6 baseProperty DEFAULT_WEIGHTS 1000000 2000000 (by norm_num [baseProperty])
    (by intro d h; simp [baseProperty] at h) (by norm_num)

end Streetwise
